import Mathlib

/-!
Verification of the resilient authenticated API client of the nimtoolapp
frontend (src/frontend/src/services/api.js) and of its live-update
subscription logic (the SSE-with-polling-fallback effect of the alert pages).

The JavaScript source is shallowly embedded: the persistent credential store
becomes an explicit record threaded through the functions, the transport
(fetch) becomes explicit outcome parameters consumed in program order, and
thrown errors become an explicit error type.  Call counters record how many
HTTP calls to the main endpoint and to the refresh endpoint a run performs.
-/

namespace NimTool

/-- JavaScript truthiness of an optional string: null, undefined and the
empty string are falsy, every other string is truthy. -/
def jsTruthy : Option String → Bool
  | none => false
  | some s => !(s == "")

/-- The value of the JavaScript expression a or-else b for strings:
a when truthy, otherwise b (used for data.refresh falling back to the
stored refresh token). -/
def jsOrStr : Option String → String → String
  | none, d => d
  | some s, d => if s == "" then d else s

/-- The Credential Store: the three localStorage slots written by
tokenManager (accessToken, refreshToken, tokenTimestamp). -/
structure Store where
  accessToken : Option String
  refreshToken : Option String
  tokenTimestamp : Option Nat
deriving DecidableEq, Repr

namespace tokenManager

/-- tokenManager.setTokens: stores both tokens and the current time. -/
def setTokens (_ : Store) (access refresh : String) (now : Nat) : Store :=
  { accessToken := some access, refreshToken := some refresh, tokenTimestamp := some now }

/-- tokenManager.clearTokens: removes both tokens and the timestamp. -/
def clearTokens (_ : Store) : Store :=
  { accessToken := none, refreshToken := none, tokenTimestamp := none }

/-- tokenManager.isLoggedIn: both tokens present (truthy). -/
def isLoggedIn (s : Store) : Bool :=
  jsTruthy s.accessToken && jsTruthy s.refreshToken

end tokenManager

/-- A structured (JSON object) error body as the classifier reads it:
the three specially named fields plus the remaining array-valued fields
in key order. -/
structure JsonBody where
  detail : Option String
  message : Option String
  non_field_errors : Option (List String)
  arrayFields : List (String × List String)
deriving DecidableEq, Repr

/-- The body of a main-endpoint response together with its declared content
type: a JSON content type whose body parses to an object, parses to a falsy
value (null), or fails to parse (res.json() rejects), or a non-JSON body
read as text. -/
inductive Body where
  | jsonObj (b : JsonBody)
  | jsonNull
  | jsonMalformed
  | text (s : String)
deriving DecidableEq, Repr

/-- A completed HTTP response to the main request. -/
structure MainResponse where
  status : Nat
  statusText : String
  body : Body
deriving DecidableEq, Repr

/-- Outcome of one fetch of the main endpoint: a completed response, or a
rejection of fetch itself (network error / timeout).  fetchTypeError
records whether the rejection satisfies the test of the catch block of
makeRequest — err.name equal to TypeError and err.message containing the
word fetch — which decides whether the rejection is converted to the fixed
network-error message or rethrown to the caller unconverted. -/
inductive MainOutcome where
  | response (r : MainResponse)
  | networkFailure (fetchTypeError : Bool)
deriving DecidableEq, Repr

/-- Parse view of a refresh-endpoint response body: the access and refresh
fields when res.json() succeeds, or a parse failure. -/
inductive RefreshParse where
  | ok (access : Option String) (refresh : Option String)
  | malformed
deriving DecidableEq, Repr

/-- A completed HTTP response to the refresh request. -/
structure RefreshResponse where
  status : Nat
  body : RefreshParse
deriving DecidableEq, Repr

/-- Outcome of the refresh fetch. -/
inductive RefreshOutcome where
  | response (r : RefreshResponse)
  | networkFailure
deriving DecidableEq, Repr

/-- The errors apiRequest can deliver to its caller, one constructor per
throw site of the source: the pre-network missing-token throw, the
session-expired throw after a failed refresh, the fixed 403 message, the
message built from a non-2xx body, the network-error conversion of a fetch
rejection that passes the TypeError-with-fetch test of the catch block,
the fetch rejection that fails that test and is rethrown unconverted, and
the uncaught exception of res.json() on a malformed body (also rethrown
unconverted by the catch block). -/
inductive ApiError where
  | noToken
  | sessionExpired
  | forbidden
  | httpError (status : Nat) (msg : String)
  | networkError
  | transportException
  | parseError
deriving DecidableEq, Repr

/-- The error taxonomy of the specification (no_content and 2xx success
are success values, not errors). -/
inductive ErrorKind where
  | transport_failure
  | unauthenticated
  | forbidden
  | not_found
  | server_error
  | validation_error
deriving DecidableEq, Repr

/-- The taxonomy kind of a delivered error; none for the two exceptions
the source rethrows unconverted — the raw body-parse exception and the
fetch rejection failing the TypeError-with-fetch test — which match no
kind. -/
def ApiError.kind : ApiError → Option ErrorKind
  | .noToken => some .unauthenticated
  | .sessionExpired => some .unauthenticated
  | .forbidden => some .forbidden
  | .networkError => some .transport_failure
  | .httpError st _ =>
      if st = 401 then some .unauthenticated
      else if st = 404 then some .not_found
      else if 500 ≤ st then some .server_error
      else some .validation_error
  | .transportException => none
  | .parseError => none

/-- An error counts as unauthenticated when its taxonomy kind is
unauthenticated. -/
def ApiError.isUnauthenticated (e : ApiError) : Bool :=
  e.kind == some .unauthenticated

/-- Successful data delivered to the caller: a parsed JSON object, the null
result (204, or a 2xx JSON null), or raw text. -/
inductive Data where
  | json (b : JsonBody)
  | nullData
  | text (s : String)
deriving DecidableEq, Repr

/-- res.ok: status in 200..299. -/
def resOk (status : Nat) : Bool :=
  decide (200 ≤ status) && decide (status < 300)

/-- The generic HTTP status line message. -/
def httpLine (status : Nat) (statusText : String) : String :=
  "HTTP " ++ toString status ++ ": " ++ statusText

/-- The error-message extraction of apiRequest for a non-ok response whose
JSON body parsed to an object: detail when truthy, else message when
truthy, else non_field_errors joined with a comma, else the array-valued
fields rendered and joined with a semicolon, else the status line. -/
def errorMessage (status : Nat) (statusText : String) (b : JsonBody) : String :=
  if jsTruthy b.detail then b.detail.getD ""
  else if jsTruthy b.message then b.message.getD ""
  else if b.non_field_errors.isSome then
    String.intercalate ", " (b.non_field_errors.getD [])
  else if b.arrayFields.length ≠ 0 then
    String.intercalate "; " (b.arrayFields.map (fun p => p.1 ++ ": " ++ String.intercalate ", " p.2))
  else httpLine status statusText

/-- The tail of makeRequest after the 401-refresh branch has been passed
over: the 403 throw, the 204 null return, body parsing, non-ok
classification, and the 2xx success return. -/
def handleResponse (r : MainResponse) : Except ApiError Data :=
  if r.status = 403 then .error .forbidden
  else if r.status = 204 then .ok .nullData
  else
    match r.body with
    | .jsonMalformed => .error .parseError
    | .jsonObj b =>
        if resOk r.status then .ok (.json b)
        else .error (.httpError r.status (errorMessage r.status r.statusText b))
    | .jsonNull =>
        if resOk r.status then .ok .nullData
        else .error (.httpError r.status (httpLine r.status r.statusText))
    | .text s =>
        if resOk r.status then .ok (.text s)
        else .error (.httpError r.status (httpLine r.status r.statusText))

/-- The part of refreshAccessToken after its fetch resolves, with rt the
refresh token captured at entry: a rejected fetch or a json parse failure
is swallowed by the catch block which clears the tokens and yields null; a
non-ok status clears the tokens only for 401/403 and yields null; an ok
response with a truthy access field stores the new pair (falling back to
the captured refresh token) and yields the new access token. -/
def refreshComplete (s : Store) (rt : String) (now : Nat) (o : RefreshOutcome) :
    Option String × Store :=
  match o with
  | .networkFailure => (none, tokenManager.clearTokens s)
  | .response r =>
    if resOk r.status then
      match r.body with
      | .malformed => (none, tokenManager.clearTokens s)
      | .ok access refresh =>
          if jsTruthy access then
            let a := access.getD ""
            (some a, tokenManager.setTokens s a (jsOrStr refresh rt) now)
          else (none, s)
    else
      if r.status = 401 ∨ r.status = 403 then (none, tokenManager.clearTokens s)
      else (none, s)

/-- refreshAccessToken: with no (truthy) refresh token stored it clears the
tokens and yields null without any HTTP call; otherwise it performs exactly
one refresh HTTP call and finishes as refreshComplete.  The third component
counts refresh HTTP calls issued. -/
def refreshAccessToken (now : Nat) (s : Store) (o : RefreshOutcome) :
    Option String × Store × Nat :=
  if jsTruthy s.refreshToken then
    let r := refreshComplete s (s.refreshToken.getD "") now o
    (r.1, r.2, 1)
  else (none, tokenManager.clearTokens s, 0)

deriving instance DecidableEq for Except

/-- The full outcome of one apiRequest call: the value or error delivered,
the final credential store, and how many HTTP calls were made to the main
endpoint and to the refresh endpoint. -/
structure ExecResult where
  result : Except ApiError Data
  store : Store
  mainCalls : Nat
  refreshCalls : Nat
deriving DecidableEq, Repr

/-- apiRequest: makeRequest(false) with the single possible retry inlined.
The source guards the recursive makeRequest(true) call by isRetry, so the
retry body is the same code with the 401-refresh branch disabled; inlining
it makes the two attempts explicit.  first and second are the outcomes of
the first and (when reached) second fetch of the main endpoint, refreshO
the outcome of the refresh fetch (when reached). -/
def apiRequest (now : Nat) (includeAuth : Bool) (first : MainOutcome)
    (refreshO : RefreshOutcome) (second : MainOutcome) (s : Store) : ExecResult :=
  if includeAuth && !(jsTruthy s.accessToken) then
    { result := .error .noToken, store := s, mainCalls := 0, refreshCalls := 0 }
  else
    match first with
    | .networkFailure ft =>
        { result := .error (if ft then ApiError.networkError else ApiError.transportException),
          store := s, mainCalls := 1, refreshCalls := 0 }
    | .response r =>
      if r.status = 401 ∧ includeAuth = true then
        match (refreshAccessToken now s refreshO).1 with
        | some _ =>
            if !(jsTruthy (refreshAccessToken now s refreshO).2.1.accessToken) then
              { result := .error .noToken, store := (refreshAccessToken now s refreshO).2.1,
                mainCalls := 1, refreshCalls := (refreshAccessToken now s refreshO).2.2 }
            else
              match second with
              | .networkFailure ft =>
                  { result := .error (if ft then ApiError.networkError else ApiError.transportException),
                    store := (refreshAccessToken now s refreshO).2.1,
                    mainCalls := 2, refreshCalls := (refreshAccessToken now s refreshO).2.2 }
              | .response r2 =>
                  { result := handleResponse r2, store := (refreshAccessToken now s refreshO).2.1,
                    mainCalls := 2, refreshCalls := (refreshAccessToken now s refreshO).2.2 }
        | none =>
            { result := .error .sessionExpired, store := (refreshAccessToken now s refreshO).2.1,
              mainCalls := 1, refreshCalls := (refreshAccessToken now s refreshO).2.2 }
      else
        { result := handleResponse r, store := s, mainCalls := 1, refreshCalls := 0 }

/-- ApiService.logout: awaits apiRequest on the logout endpoint inside a
try block whose finally clause clears the tokens, so the tokens are cleared
whether the request succeeds or throws; the request outcome (value or
rethrown error) is passed on unchanged. -/
def logout (now : Nat) (first : MainOutcome) (refreshO : RefreshOutcome)
    (second : MainOutcome) (s : Store) : Except ApiError Data × Store :=
  let r := apiRequest now true first refreshO second s
  (r.result, tokenManager.clearTokens r.store)

/-!
Interleaving model of concurrent authenticated apiRequest calls sharing the
credential store.  Each task runs the same makeRequest code; a task yields
control only at its await points (the main fetch, the refresh fetch, the
retry fetch), so its code between two await points runs as one atomic
segment.  A task that is between issuing the refresh fetch and receiving
its outcome has a refresh HTTP call in flight.
-/

/-- Program counter of one task, one value per await point of makeRequest.
awaitingRefresh carries the refresh token that refreshAccessToken read into
a local at entry. -/
inductive TaskPC where
  | start
  | awaitingFirst
  | awaitingRefresh (rt : String)
  | awaitingRetry
  | finished (ok : Bool)
deriving DecidableEq, Repr

/-- Global state of two interleaved authenticated requests: the shared
credential store, the program counter of each task, and a count of refresh
HTTP calls issued so far. -/
structure ConcState where
  store : Store
  pc1 : TaskPC
  pc2 : TaskPC
  refreshStarts : Nat
deriving DecidableEq, Repr

/-- Number of refresh HTTP calls currently in flight: tasks suspended on
the refresh fetch. -/
def refreshInFlight (g : ConcState) : Nat :=
  (match g.pc1 with | .awaitingRefresh _ => 1 | _ => 0)
  + (match g.pc2 with | .awaitingRefresh _ => 1 | _ => 0)

/-- Segment from task start to the first await: the token presence check,
then dispatch of the main fetch.  Third component counts refresh calls
issued by the segment. -/
def taskDispatch (s : Store) (pc : TaskPC) : Store × TaskPC × Nat :=
  match pc with
  | .start =>
      if jsTruthy s.accessToken then (s, .awaitingFirst, 0)
      else (s, .finished false, 0)
  | _ => (s, pc, 0)

/-- Segment resuming a task with the outcome of its first fetch: a 401
enters refreshAccessToken, which reads the refresh token and either
dispatches the refresh fetch (suspending the task with one more refresh
call in flight) or, with no refresh token stored, clears the tokens and
fails the request; any other outcome finishes the request as
handleResponse does. -/
def taskFirstResp (o : MainOutcome) (s : Store) (pc : TaskPC) : Store × TaskPC × Nat :=
  match pc with
  | .awaitingFirst =>
    match o with
    | .networkFailure _ => (s, .finished false, 0)
    | .response r =>
      if r.status = 401 then
        if jsTruthy s.refreshToken then
          (s, .awaitingRefresh (s.refreshToken.getD ""), 1)
        else (tokenManager.clearTokens s, .finished false, 0)
      else (s, .finished (handleResponse r).toBool, 0)
  | _ => (s, pc, 0)

/-- Segment resuming a task with the outcome of its refresh fetch:
refreshComplete runs, and on success the retry fetch is dispatched after
the token presence recheck of makeRequest(true); on failure the request
fails with the session-expired error. -/
def taskRefreshResp (now : Nat) (o : RefreshOutcome) (s : Store) (pc : TaskPC) :
    Store × TaskPC × Nat :=
  match pc with
  | .awaitingRefresh rt =>
    match refreshComplete s rt now o with
    | (some _, s') =>
        if jsTruthy s'.accessToken then (s', .awaitingRetry, 0)
        else (s', .finished false, 0)
    | (none, s') => (s', .finished false, 0)
  | _ => (s, pc, 0)

/-- Segment resuming a task with the outcome of its retry fetch. -/
def taskRetryResp (o : MainOutcome) (s : Store) (pc : TaskPC) : Store × TaskPC × Nat :=
  match pc with
  | .awaitingRetry =>
    match o with
    | .networkFailure _ => (s, .finished false, 0)
    | .response r => (s, .finished (handleResponse r).toBool, 0)
  | _ => (s, pc, 0)

/-- A scheduler event: which task runs its next segment, and the transport
outcome delivered to it when it is resuming from an await. -/
inductive ConcEvent where
  | dispatch (t : Bool)
  | firstResp (t : Bool) (o : MainOutcome)
  | refreshResp (t : Bool) (o : RefreshOutcome)
  | retryResp (t : Bool) (o : MainOutcome)
deriving DecidableEq, Repr

/-- Apply a per-task segment to the chosen task of the global state. -/
def applyTask (t : Bool) (g : ConcState)
    (f : Store → TaskPC → Store × TaskPC × Nat) : ConcState :=
  if t then
    let (s', pc', d) := f g.store g.pc2
    { store := s', pc1 := g.pc1, pc2 := pc', refreshStarts := g.refreshStarts + d }
  else
    let (s', pc', d) := f g.store g.pc1
    { store := s', pc1 := pc', pc2 := g.pc2, refreshStarts := g.refreshStarts + d }

/-- One interleaving step. -/
def stepConc (now : Nat) (g : ConcState) (e : ConcEvent) : ConcState :=
  match e with
  | .dispatch t => applyTask t g taskDispatch
  | .firstResp t o => applyTask t g (taskFirstResp o)
  | .refreshResp t o => applyTask t g (taskRefreshResp now o)
  | .retryResp t o => applyTask t g (taskRetryResp o)

/-- Run a schedule of events. -/
def runConc (now : Nat) (g : ConcState) (es : List ConcEvent) : ConcState :=
  es.foldl (stepConc now) g

/-!
The live-update subscription of the alert pages: SSE with polling fallback
(the useEffect of src/unnamed/part_005 lines 805-843 and part_006 lines
87-124).  esOpen models esRef.current holding an open EventSource,
pollInterval models pollRef.current holding a running interval timer with
its period in milliseconds, aborted models the aborted flag set by the
cleanup, and updates counts invocations of fetchAlerts (the on_update of
the subscription).
-/

/-- State of one live-update subscription. -/
structure SubState where
  aborted : Bool
  esOpen : Bool
  pollInterval : Option Nat
  updates : Nat
deriving DecidableEq, Repr

/-- The state at effect entry: no transport, not aborted. -/
def subStart : SubState :=
  { aborted := false, esOpen := false, pollInterval := none, updates := 0 }

/-- startPolling: starts a 10000 ms interval timer unless one is already
running. -/
def startPolling (s : SubState) : SubState :=
  match s.pollInterval with
  | some _ => s
  | none => { s with pollInterval := some 10000 }

/-- startSSE: with no SSE URL configured it goes straight to polling;
otherwise it constructs the EventSource, which either opens (push mode) or
throws, in which case polling starts. -/
def startSSE (hasURL : Bool) (ctorOk : Bool) (s : SubState) : SubState :=
  if hasURL then
    if ctorOk then { s with esOpen := true }
    else startPolling s
  else startPolling s

/-- Events a running subscription can receive: an SSE message, an SSE
error, a timer tick, or the effect cleanup (unsubscribe). -/
inductive SubEvent where
  | sseMessage
  | sseError
  | pollTick
  | cleanup
deriving DecidableEq, Repr

/-- One subscription step.  Handlers of a closed EventSource no longer
fire, so sseMessage and sseError apply only while the source is open; the
onmessage handler additionally checks the aborted flag.  The onerror
handler closes the source, nulls the ref and starts polling.  A tick of a
running timer runs fetchAlerts.  The cleanup sets aborted, closes any open
source, clears any running timer and nulls both refs. -/
def stepSub (s : SubState) (e : SubEvent) : SubState :=
  match e with
  | .sseMessage =>
      if s.esOpen && !s.aborted then { s with updates := s.updates + 1 } else s
  | .sseError =>
      if s.esOpen then startPolling { s with esOpen := false } else s
  | .pollTick =>
      match s.pollInterval with
      | some _ => { s with updates := s.updates + 1 }
      | none => s
  | .cleanup => { s with aborted := true, esOpen := false, pollInterval := none }

/-- Run a sequence of subscription events. -/
def runSub (s : SubState) (es : List SubEvent) : SubState :=
  es.foldl stepSub s

/-- At most one transport resource is active: not both an open push
connection and a running timer. -/
def atMostOneTransport (s : SubState) : Bool :=
  !(s.esOpen && s.pollInterval.isSome)

/-!
Spec-side definitions used for refinement comparison with the
source-derived classifier.
-/

/-- The message precedence exactly as the claim words it, keyed on field
presence: the detail field if present, else the message field, else the
non_field_errors list joined with a comma, else the array-valued fields
rendered and joined with a semicolon, else the bare status line.  Stated
from the claim for comparison with errorMessage. -/
def specMessage (status : Nat) (statusText : String) (b : JsonBody) : String :=
  match b.detail with
  | some d => d
  | none =>
    match b.message with
    | some m => m
    | none =>
      match b.non_field_errors with
      | some l => String.intercalate ", " l
      | none =>
        if b.arrayFields.length ≠ 0 then
          String.intercalate "; "
            (b.arrayFields.map (fun p => p.1 ++ ": " ++ String.intercalate ", " p.2))
        else httpLine status statusText

/-- The amended precedence: a present field is used only when it is also
non-empty (JavaScript truthiness), so an empty detail or message string
falls through to the next alternative. -/
def specMessageAmended (status : Nat) (statusText : String) (b : JsonBody) : String :=
  if b.detail.isSome ∧ b.detail.getD "" ≠ "" then b.detail.getD ""
  else if b.message.isSome ∧ b.message.getD "" ≠ "" then b.message.getD ""
  else if b.non_field_errors.isSome then
    String.intercalate ", " (b.non_field_errors.getD [])
  else if b.arrayFields.length ≠ 0 then
    String.intercalate "; "
      (b.arrayFields.map (fun p => p.1 ++ ": " ++ String.intercalate ", " p.2))
  else httpLine status statusText

/-!
Concrete fixtures used by the counterexamples and witnesses.
-/

/-- A 401 response with a JSON null body. -/
def resp401 : MainResponse :=
  { status := 401, statusText := "Unauthorized", body := .jsonNull }

/-- A 401 response whose declared-JSON body fails to parse. -/
def resp401bad : MainResponse :=
  { status := 401, statusText := "Unauthorized", body := .jsonMalformed }

/-- A 400 response whose declared-JSON body fails to parse. -/
def resp400bad : MainResponse :=
  { status := 400, statusText := "Bad Request", body := .jsonMalformed }

/-- A store holding a credential pair. -/
def store0 : Store :=
  { accessToken := some "expiredAccess", refreshToken := some "refresh1", tokenTimestamp := some 0 }

/-- A successful refresh response carrying a new access token. -/
def refreshOk : RefreshOutcome :=
  .response { status := 200, body := .ok (some "newAccess") none }

/-- The cleared store. -/
def storeCleared : Store :=
  { accessToken := none, refreshToken := none, tokenTimestamp := none }

/-!
Theorems settling the claims.
-/

/-- C1: the claim that at most one refresh HTTP call is ever in flight
system-wide is violated by the code: two concurrent authenticated requests
that each receive a 401 each enter refreshAccessToken and each issue their
own refresh call, so a state with two refresh calls simultaneously in
flight (and two refresh calls issued in total) is reached under the
schedule below. -/
theorem c1_two_refresh_calls_in_flight :
    refreshInFlight
      (runConc 0 { store := store0, pc1 := .start, pc2 := .start, refreshStarts := 0 }
        [.dispatch false, .dispatch true,
         .firstResp false (.response resp401), .firstResp true (.response resp401)]) = 2
    ∧ (runConc 0 { store := store0, pc1 := .start, pc2 := .start, refreshStarts := 0 }
        [.dispatch false, .dispatch true,
         .firstResp false (.response resp401), .firstResp true (.response resp401)]).refreshStarts = 2 := by
  decide

/-- C4 as worded is false on the code: for the body with an empty detail
string and message x, the claimed precedence (detail if present) yields the
empty detail, but the classifier skips the falsy empty string and yields x. -/
theorem c4_counterexample :
    errorMessage 400 "Bad Request"
      { detail := some "", message := some "x", non_field_errors := none, arrayFields := [] } = "x"
    ∧ specMessage 400 "Bad Request"
      { detail := some "", message := some "x", non_field_errors := none, arrayFields := [] } = ""
    ∧ errorMessage 400 "Bad Request"
        { detail := some "", message := some "x", non_field_errors := none, arrayFields := [] }
      ≠ specMessage 400 "Bad Request"
        { detail := some "", message := some "x", non_field_errors := none, arrayFields := [] } := by
  decide

/-- C4 amended: the classifier follows the claimed precedence with a
present detail or message field used only when non-empty; the three example
bodies of the claim evaluate as the claim states. -/
theorem c4_message_precedence (status : Nat) (statusText : String) (b : JsonBody) :
    errorMessage status statusText b = specMessageAmended status statusText b
    ∧ errorMessage 400 "Bad Request"
        { detail := some "bad input", message := none, non_field_errors := none,
          arrayFields := [] } = "bad input"
    ∧ errorMessage 400 "Bad Request"
        { detail := none, message := none, non_field_errors := some ["a", "b"],
          arrayFields := [] } = "a, b"
    ∧ errorMessage 400 "Bad Request"
        { detail := none, message := none, non_field_errors := none,
          arrayFields := [("ip_address", ["invalid"])] } = "ip_address: invalid" := by
  refine ⟨?_, by decide, by decide, by decide⟩
  rcases b with ⟨d, m, n, a⟩
  rcases d with _ | d <;> rcases m with _ | m <;>
    simp [errorMessage, specMessageAmended, jsTruthy]

/-- C5: an authenticated request with no stored access token fails
immediately with the no-token error (an unauthenticated kind) and performs
zero HTTP calls, leaving the store untouched. -/
theorem c5_no_credentials_fast_path (now : Nat) (first : MainOutcome)
    (refreshO : RefreshOutcome) (second : MainOutcome) (s : Store)
    (h : s.accessToken = none) :
    apiRequest now true first refreshO second s =
      { result := .error .noToken, store := s, mainCalls := 0, refreshCalls := 0 }
    ∧ ApiError.noToken.isUnauthenticated = true := by
  refine ⟨?_, rfl⟩
  simp [apiRequest, h, jsTruthy]

/-- C5 witness: the fast path at a concrete empty store. -/
theorem c5_witness :
    apiRequest 0 true (.response resp401) .networkFailure (.networkFailure true) storeCleared =
      { result := .error .noToken, store := storeCleared, mainCalls := 0, refreshCalls := 0 }
    ∧ ApiError.noToken.isUnauthenticated = true :=
  c5_no_credentials_fast_path 0 (.response resp401) .networkFailure (.networkFailure true) storeCleared rfl

/-- The kind of a body-derived error is always some taxonomy kind. -/
theorem httpError_kind_isSome (st : Nat) (m : String) :
    (ApiError.kind (.httpError st m)).isSome = true := by
  simp only [ApiError.kind]
  split_ifs <;> simp

/-- A 401 handled outside the refresh branch is delivered as an error, and
as an unauthenticated one whenever its body is not a malformed JSON body. -/
theorem handleResponse_401_error (r : MainResponse) (h : r.status = 401) :
    ∃ e, handleResponse r = .error e
      ∧ (r.body ≠ Body.jsonMalformed → e.isUnauthenticated = true) := by
  rcases r with ⟨st, stx, body⟩
  simp only at h
  subst h
  cases body <;>
    simp [handleResponse, resOk, ApiError.isUnauthenticated, ApiError.kind]

/-- Every error handleResponse delivers for a response whose body is not
malformed JSON has a taxonomy kind. -/
theorem handleResponse_classified (r : MainResponse) (hb : r.body ≠ Body.jsonMalformed) :
    ∀ e, handleResponse r = .error e → (ApiError.kind e).isSome = true := by
  intro e he
  rcases r with ⟨st, stx, body⟩
  cases body <;>
    simp only [handleResponse] at he <;>
    split_ifs at he <;>
    cases he <;>
    first
      | rfl
      | exact absurd rfl hb
      | exact httpError_kind_isSome _ _

/-- refreshAccessToken performs at most one refresh HTTP call. -/
theorem refreshAccessToken_le_one (now : Nat) (s : Store) (o : RefreshOutcome) :
    (refreshAccessToken now s o).2.2 ≤ 1 := by
  unfold refreshAccessToken
  split <;> simp

/-- C2 as worded is false in one corner: with a backend answering 401 on
both attempts, when the 401 retry response declares a JSON body that fails
to parse, the caller receives the raw parse error, not an unauthenticated
result; the bound itself holds (two attempts, one refresh). -/
theorem c2_counterexample :
    (apiRequest 0 true (.response resp401) refreshOk (.response resp401bad) store0).result
      = .error .parseError
    ∧ ApiError.parseError.isUnauthenticated = false
    ∧ (apiRequest 0 true (.response resp401) refreshOk (.response resp401bad) store0).mainCalls = 2
    ∧ (apiRequest 0 true (.response resp401) refreshOk (.response resp401bad) store0).refreshCalls = 1 := by
  decide

/-- C2 amended: every logical request performs at most two HTTP attempts
and at most one refresh call, and when both attempts return 401 the request
is delivered to the caller as an error without any further refresh or
retry — an unauthenticated error whenever the retry response body is not
malformed JSON (a malformed one surfaces as the raw parse error). -/
theorem c2_bounded_retry (now : Nat) (auth : Bool) (first : MainOutcome)
    (refreshO : RefreshOutcome) (second : MainOutcome) (s : Store) :
    (apiRequest now auth first refreshO second s).mainCalls ≤ 2
    ∧ (apiRequest now auth first refreshO second s).refreshCalls ≤ 1
    ∧ (∀ r1 r2, first = .response r1 → second = .response r2 →
        r1.status = 401 → r2.status = 401 → auth = true →
        ∃ e, (apiRequest now auth first refreshO second s).result = .error e
          ∧ (r2.body ≠ Body.jsonMalformed → e.isUnauthenticated = true)) := by
  refine ⟨?_, ?_, ?_⟩
  · unfold apiRequest
    repeat' split
    all_goals simp
  · unfold apiRequest
    repeat' split
    all_goals simp [refreshAccessToken_le_one]
  · intro r1 r2 hf hs hs1 hs2 hauth
    subst hf
    subst hs
    subst hauth
    by_cases hfast : jsTruthy s.accessToken = true
    · rcases hopt : (refreshAccessToken now s refreshO).1 with _ | tok
      · exact ⟨.sessionExpired, by simp [apiRequest, hfast, hs1, hopt], fun _ => rfl⟩
      · by_cases htk : jsTruthy (refreshAccessToken now s refreshO).2.1.accessToken = true
        · obtain ⟨e, he, himp⟩ := handleResponse_401_error r2 hs2
          exact ⟨e, by simp [apiRequest, hfast, hs1, hopt, htk, he], himp⟩
        · rw [Bool.not_eq_true] at htk
          exact ⟨.noToken, by simp [apiRequest, hfast, hs1, hopt, htk], fun _ => rfl⟩
    · rw [Bool.not_eq_true] at hfast
      exact ⟨.noToken, by simp [apiRequest, hfast], fun _ => rfl⟩

/-- C2 witness: the bound at a concrete run where both attempts return 401
with parseable bodies. -/
theorem c2_witness :
    (apiRequest 0 true (.response resp401) refreshOk (.response resp401) store0).mainCalls ≤ 2
    ∧ (apiRequest 0 true (.response resp401) refreshOk (.response resp401) store0).refreshCalls ≤ 1
    ∧ ∃ e, (apiRequest 0 true (.response resp401) refreshOk (.response resp401) store0).result
          = .error e
        ∧ (resp401.body ≠ Body.jsonMalformed → e.isUnauthenticated = true) := by
  obtain ⟨h1, h2, h3⟩ := c2_bounded_retry 0 true (.response resp401) refreshOk (.response resp401) store0
  exact ⟨h1, h2, h3 resp401 resp401 rfl rfl rfl rfl rfl⟩

/-- C3 as worded is false on the code: a transport failure of the refresh
call is swallowed by the catch block of refreshAccessToken, which clears
the stored credential pair, and the request then fails with the
session-expired error, whose kind is unauthenticated rather than
transport_failure. -/
theorem c3_counterexample :
    (apiRequest 0 true (.response resp401) .networkFailure (.networkFailure true) store0).store ≠ store0
    ∧ (apiRequest 0 true (.response resp401) .networkFailure (.networkFailure true) store0).result
        = .error .sessionExpired
    ∧ ApiError.sessionExpired.kind ≠ some .transport_failure := by
  decide

/-- C3 amended: a transport failure during the refresh call clears the
stored credential pair (the catch block treats it like an invalid-token
failure) and the request fails with the session-expired unauthenticated
error, with no retry. -/
theorem c3_refresh_transport_failure (now : Nat) (second : MainOutcome) (s : Store)
    (r1 : MainResponse) (ha : jsTruthy s.accessToken = true)
    (hr : jsTruthy s.refreshToken = true) (h1 : r1.status = 401) :
    apiRequest now true (.response r1) .networkFailure second s =
      { result := .error .sessionExpired, store := storeCleared, mainCalls := 1, refreshCalls := 1 }
    ∧ ApiError.sessionExpired.isUnauthenticated = true := by
  refine ⟨?_, rfl⟩
  simp [apiRequest, ha, h1, refreshAccessToken, hr, refreshComplete,
    tokenManager.clearTokens, storeCleared]

/-- C3 witness: the amended behaviour at a concrete store and responses. -/
theorem c3_witness :
    apiRequest 0 true (.response resp401) .networkFailure (.networkFailure true) store0 =
      { result := .error .sessionExpired, store := storeCleared, mainCalls := 1, refreshCalls := 1 }
    ∧ ApiError.sessionExpired.isUnauthenticated = true :=
  c3_refresh_transport_failure 0 (.networkFailure true) store0 resp401 (by decide) (by decide) rfl

/-- C6: a refresh call answered 401 or 403 clears both tokens (and the
timestamp) from the store, and the request that was waiting on that refresh
resolves with the session-expired unauthenticated error without any retry
(one main HTTP attempt, one refresh call). -/
theorem c6_invalid_refresh_clears_store (now : Nat) (second : MainOutcome) (s : Store)
    (r1 : MainResponse) (rr : RefreshResponse)
    (ha : jsTruthy s.accessToken = true) (hr : jsTruthy s.refreshToken = true)
    (h1 : r1.status = 401) (hrr : rr.status = 401 ∨ rr.status = 403) :
    apiRequest now true (.response r1) (.response rr) second s =
      { result := .error .sessionExpired, store := storeCleared, mainCalls := 1, refreshCalls := 1 }
    ∧ ApiError.sessionExpired.isUnauthenticated = true := by
  refine ⟨?_, rfl⟩
  have hok : resOk rr.status = false := by
    rcases hrr with h | h <;> simp [resOk, h]
  simp [apiRequest, ha, h1, refreshAccessToken, hr, refreshComplete, hok, hrr,
    tokenManager.clearTokens, storeCleared]

/-- C6 witness: the clearing behaviour at a concrete 401 refresh answer. -/
theorem c6_witness :
    apiRequest 0 true (.response resp401)
        (.response { status := 401, body := .ok none none }) (.networkFailure true) store0 =
      { result := .error .sessionExpired, store := storeCleared, mainCalls := 1, refreshCalls := 1 }
    ∧ ApiError.sessionExpired.isUnauthenticated = true :=
  c6_invalid_refresh_clears_store 0 (.networkFailure true) store0 resp401
    { status := 401, body := .ok none none } (by decide) (by decide) rfl (Or.inl rfl)

/-- C7 as worded is false in two corners, both rethrow-raw paths of the
catch block: a response that declares a JSON content type but whose body
fails to parse makes res.json() reject and the rejection is rethrown
unconverted, and a fetch rejection that fails the TypeError-with-fetch
test of the catch is likewise rethrown unconverted; in both runs the
caller receives an error that matches no kind of the taxonomy. -/
theorem c7_counterexample :
    (apiRequest 0 true (.response resp400bad) .networkFailure (.networkFailure true) store0).result
      = .error .parseError
    ∧ ApiError.parseError.kind = none
    ∧ (apiRequest 0 true (.networkFailure false) .networkFailure (.networkFailure true) store0).result
      = .error .transportException
    ∧ ApiError.transportException.kind = none := by
  decide

/-- C7 amended: for every call whose response bodies parse (no malformed
declared-JSON body) and whose transport failures are fetch rejections
passing the TypeError-with-fetch test of the catch block, the result
delivered to the caller is either a success or an error carrying one of
the fixed taxonomy kinds; only the two rethrow-raw paths (malformed
declared-JSON body, non-matching fetch rejection) let an unclassified
error reach the caller. -/
theorem c7_every_error_classified (now : Nat) (auth : Bool) (first : MainOutcome)
    (refreshO : RefreshOutcome) (second : MainOutcome) (s : Store)
    (hb1 : ∀ r, first = .response r → r.body ≠ Body.jsonMalformed)
    (hb2 : ∀ r, second = .response r → r.body ≠ Body.jsonMalformed)
    (ht1 : ∀ b, first = .networkFailure b → b = true)
    (ht2 : ∀ b, second = .networkFailure b → b = true) :
    ∀ e, (apiRequest now auth first refreshO second s).result = .error e →
      (ApiError.kind e).isSome = true := by
  intro e he
  by_cases hfast : (auth && !(jsTruthy s.accessToken)) = true
  · simp only [apiRequest, if_pos hfast] at he
    injection he with h
    subst h
    rfl
  · rcases first with r1 | b1
    · have hb1r := hb1 r1 rfl
      by_cases h401 : r1.status = 401 ∧ auth = true
      · rcases hopt : (refreshAccessToken now s refreshO).1 with _ | tok
        · simp only [apiRequest, if_neg hfast, if_pos h401, hopt] at he
          injection he with h
          subst h
          rfl
        · by_cases htk : (!(jsTruthy (refreshAccessToken now s refreshO).2.1.accessToken)) = true
          · simp only [apiRequest, if_neg hfast, if_pos h401, hopt, if_pos htk] at he
            injection he with h
            subst h
            rfl
          · rcases second with r2 | b2
            · have hb2r := hb2 r2 rfl
              simp only [apiRequest, if_neg hfast, if_pos h401, hopt, if_neg htk] at he
              exact handleResponse_classified r2 hb2r e he
            · have hb2t := ht2 b2 rfl
              subst hb2t
              simp only [apiRequest, if_neg hfast, if_pos h401, hopt, if_neg htk, if_pos rfl] at he
              injection he with h
              subst h
              rfl
      · simp only [apiRequest, if_neg hfast, if_neg h401] at he
        exact handleResponse_classified r1 hb1r e he
    · have hb1t := ht1 b1 rfl
      subst hb1t
      simp only [apiRequest, if_neg hfast, if_pos rfl] at he
      injection he with h
      subst h
      rfl

/-- C7 witness: at a concrete run (401 then refresh transport failure) the
delivered error carries a taxonomy kind. -/
theorem c7_witness :
    (ApiError.kind ApiError.sessionExpired).isSome = true :=
  c7_every_error_classified 0 true (.response resp401) .networkFailure (.networkFailure true) store0
    (by intro r h; cases h; decide) (by intro r h; cases h)
    (by intro b h; cases h) (by intro b h; cases h; rfl)
    ApiError.sessionExpired (by decide)

/-- C10: logout clears the access token, refresh token and timestamp in its
finally clause, for every possible outcome of the backend logout request
(success, error status, refresh attempt, or network failure), so after
logout the store is empty and isLoggedIn is false. -/
theorem c10_logout_always_clears (now : Nat) (first : MainOutcome)
    (refreshO : RefreshOutcome) (second : MainOutcome) (s : Store) :
    (logout now first refreshO second s).2 = storeCleared
    ∧ tokenManager.isLoggedIn (logout now first refreshO second s).2 = false := by
  exact ⟨rfl, rfl⟩

/-- Once the push connection is closed, no subscription event reopens it. -/
theorem stepSub_esOpen_stays_false (s : SubState) (e : SubEvent) (h : s.esOpen = false) :
    (stepSub s e).esOpen = false := by
  cases e <;> simp only [stepSub] <;> repeat' split <;> simp_all [startPolling]

/-- Once the push connection is closed, it stays closed along any event
sequence. -/
theorem runSub_esOpen_stays_false (es : List SubEvent) (s : SubState) (h : s.esOpen = false) :
    (runSub s es).esOpen = false := by
  induction es generalizing s with
  | nil => exact h
  | cons e es ih => exact ih (stepSub s e) (stepSub_esOpen_stays_false s e h)

/-- Every subscription event preserves the single-transport invariant. -/
theorem stepSub_atMostOne (s : SubState) (e : SubEvent) (h : atMostOneTransport s = true) :
    atMostOneTransport (stepSub s e) = true := by
  cases e <;> simp only [stepSub]
  all_goals repeat' split
  all_goals first
    | rfl
    | simp_all [atMostOneTransport, startPolling]

/-- The single-transport invariant holds along any event sequence. -/
theorem runSub_atMostOne (es : List SubEvent) (s : SubState) (h : atMostOneTransport s = true) :
    atMostOneTransport (runSub s es) = true := by
  induction es generalizing s with
  | nil => exact h
  | cons e es ih => exact ih (stepSub s e) (stepSub_atMostOne s e h)

/-- C8: when the push transport cannot be established — no SSE URL
configured, or the EventSource constructor throws — the subscription is
polling on the fixed 10000 ms (10 second) interval with no open push
connection; an error on an established push transport closes it and moves
to the same fixed-interval polling; every tick of the running timer
invokes the update callback; and once the push connection is closed no
later event reopens it, so a downgraded subscription never returns to
push. -/
theorem c8_push_fallback_to_polling (ctorOk : Bool) (evs : List SubEvent) (s : SubState) :
    ((startSSE false ctorOk subStart).pollInterval = some 10000
      ∧ (startSSE false ctorOk subStart).esOpen = false)
    ∧ ((startSSE true false subStart).pollInterval = some 10000
      ∧ (startSSE true false subStart).esOpen = false)
    ∧ ((stepSub (startSSE true true subStart) .sseError).pollInterval = some 10000
      ∧ (stepSub (startSSE true true subStart) .sseError).esOpen = false)
    ∧ (s.pollInterval = some 10000 →
        (stepSub s .pollTick).updates = s.updates + 1
        ∧ (stepSub s .pollTick).pollInterval = some 10000)
    ∧ (s.esOpen = false → (runSub s evs).esOpen = false) := by
  refine ⟨⟨?_, ?_⟩, ⟨rfl, rfl⟩, ⟨rfl, rfl⟩, ?_, ?_⟩
  · cases ctorOk <;> rfl
  · cases ctorOk <;> rfl
  · intro h
    exact ⟨by simp [stepSub, h], by simp [stepSub, h]⟩
  · exact runSub_esOpen_stays_false evs s

/-- C8 witness: fallback with no SSE URL lands in 10-second polling, a tick
of that timer fires the callback, and the connection stays closed across a
concrete later event sequence. -/
theorem c8_witness :
    ((startSSE false true subStart).pollInterval = some 10000
      ∧ (startSSE false true subStart).esOpen = false)
    ∧ ((stepSub (startPolling subStart) .pollTick).updates
          = (startPolling subStart).updates + 1
      ∧ (stepSub (startPolling subStart) .pollTick).pollInterval = some 10000)
    ∧ (runSub (startPolling subStart) [.sseError, .pollTick, .cleanup]).esOpen = false := by
  have h := c8_push_fallback_to_polling true [.sseError, .pollTick, .cleanup]
    (startPolling subStart)
  exact ⟨h.1, h.2.2.2.1 rfl, h.2.2.2.2 rfl⟩

/-!
The full effect lifecycle, needed to settle the unsubscribe claim: the
effect body is an async function that awaits the initial fetchAlerts and
only then calls startSSE, without rechecking the aborted flag, so the
transport can be established after the cleanup has already run.  EffState
adds the pending-initial-fetch phase on top of SubState.
-/

/-- State of one effect incarnation: the subscription state plus whether
the initial awaited fetchAlerts is still pending (startSSE not yet run). -/
structure EffState where
  sub : SubState
  fetchPending : Bool
deriving DecidableEq, Repr

/-- The state at effect entry: initial fetch dispatched and awaited. -/
def effStart : EffState :=
  { sub := subStart, fetchPending := true }

/-- Events of the effect lifecycle: the resolution of the initial awaited
fetchAlerts — whose continuation runs startSSE with the configured URL and
constructor outcome, with no aborted check in the source — or any
subscription event, including the cleanup. -/
inductive EffEvent where
  | fetchDone (hasURL : Bool) (ctorOk : Bool)
  | sub (e : SubEvent)
deriving DecidableEq, Repr

/-- One effect-lifecycle step.  fetchDone mirrors the async continuation
of the effect body: when the initial fetch was pending it runs startSSE
unconditionally — the source checks aborted neither there nor inside
startSSE or startPolling. -/
def stepEff (s : EffState) (e : EffEvent) : EffState :=
  match e with
  | .fetchDone hasURL ctorOk =>
      if s.fetchPending then
        { sub := startSSE hasURL ctorOk s.sub, fetchPending := false }
      else s
  | .sub e => { s with sub := stepSub s.sub e }

/-- Run a sequence of effect-lifecycle events. -/
def runEff (s : EffState) (es : List EffEvent) : EffState :=
  es.foldl stepEff s

/-- C9: the idempotent-unsubscribe claim is violated by the code: when the
effect cleanup (unsubscribe) runs while the initial awaited fetchAlerts is
still pending, the async continuation afterwards calls startSSE without
rechecking the aborted flag, so it opens a fresh push connection (or, with
no SSE URL configured, starts a fresh 10000 ms timer) that the
already-finished cleanup never releases: after unsubscribe was called, an
open transport or a running timer remains. -/
theorem c9_unsubscribe_leaves_open_transport :
    (runEff effStart [.sub .cleanup, .fetchDone true true]).sub.esOpen = true
    ∧ (runEff effStart [.sub .cleanup, .fetchDone true true]).sub.aborted = true
    ∧ (runEff effStart [.sub .cleanup, .fetchDone false true]).sub.pollInterval = some 10000 := by
  decide

end NimTool
